import Mathlib

/-!
# Manta storage driver

A shallow embedding of `registry/storage/driver/manta/manta.go` and the
properties of it that the storage-adapter specification states.

Conventions of the embedding

* A Go result pair `(T, error)` is a Lean pair `Option T × Option Error`
  (`none` is Go's `nil`); a lone `error` result is `Option Error`.
* A `[]byte` is a `List Byte`; the `nil` slice and the empty slice are both
  `[]`, as they are for `len` and `bytes.Equal`.
* `driver` is `struct{}`: it has no field, so a method can neither read nor
  write any state. Methods are therefore pure functions of their arguments and
  a sequence of calls is just the sequence of their results.
* The visit function handed to `Walk` may have effects; it is a state
  transformer over an arbitrary state `σ`, so that its invocations can be
  observed.
* `log.Fatalf` ends the process; results of code that may call it are wrapped
  in `Outcome`.
* Everything `newMantaClient` obtains from outside the package (environment,
  file system, PEM decoding, signer and client constructors) is a field of
  `World`.
-/

namespace manta

/-! ## Data model -/

/-- One octet. -/
abbrev Byte := Fin 256

/-- Go `[]byte`. -/
abbrev Bytes := List Byte

/-- The constant `driverName`. -/
def driverName : String := "manta"

/-- Errors the package produces or passes on. `PathNotFoundError` is the
storage-driver error built by `Writer`; `errorString` is the value of
`fmt.Errorf`; `UnsupportedMethodError` is the error the doc comment of `URLFor`
names; `external` is an error handed back by a library call, identified by its
message. -/
inductive Error where
  | PathNotFoundError (Path : String)
  | UnsupportedMethodError
  | errorString (msg : String)
  | external (msg : String)
  deriving DecidableEq, Repr

/-- The `context.Context` every driver method receives. -/
structure Context where
  done : Bool
  deriving DecidableEq, Repr

/-- The snapshot a `Stat` call or a `Walk` visit carries: path, size in bytes,
modification time and directory flag. -/
structure FileInfo where
  Path : String
  Size : Int
  ModTime : Int
  IsDir : Bool
  deriving DecidableEq, Repr

/-- A readable stream (`io.ReadCloser`): the bytes still to be read. -/
structure ReadCloser where
  remaining : Bytes
  deriving DecidableEq, Repr

/-- A writer session (`storagedriver.FileWriter`): target path, bytes written
so far, and the two terminal flags. -/
structure FileWriter where
  path : String
  size : Int
  committed : Bool
  cancelled : Bool
  deriving DecidableEq, Repr

/-- The visit function of `Walk` (`storagedriver.WalkFn`), with its effects
made explicit as a transformer of a state `σ`. -/
abbrev WalkFn (σ : Type) := FileInfo → σ → Option Error × σ

/-- The Go type `driver`, declared `struct{}`. -/
structure driver where
  deriving DecidableEq, Repr

/-! ## External collaborators of `newMantaClient` -/

/-- Input of `authentication.NewSSHAgentSigner`. -/
structure SSHAgentSignerInput where
  KeyID : String
  AccountName : String
  Username : String
  deriving DecidableEq, Repr

/-- Input of `authentication.NewPrivateKeySigner`. -/
structure PrivateKeySignerInput where
  KeyID : String
  PrivateKeyMaterial : Bytes
  AccountName : String
  Username : String
  deriving DecidableEq, Repr

/-- An `authentication.Signer`, identified by how it was made. -/
inductive Signer where
  | sshAgent (input : SSHAgentSignerInput)
  | privateKey (input : PrivateKeySignerInput)
  deriving DecidableEq, Repr

/-- The fields of `triton.ClientConfig` that the package fills in. -/
structure ClientConfig where
  MantaURL : String
  AccountName : String
  Username : String
  Signers : List Signer
  deriving DecidableEq, Repr

/-- A `storage.StorageClient`, identified by its configuration. -/
structure StorageClient where
  config : ClientConfig
  deriving DecidableEq, Repr

/-- A decoded PEM block; only its headers are inspected. -/
structure Block where
  Headers : List (String × String)
  deriving DecidableEq, Repr

/-- Go map indexing `block.Headers[k]`: the zero value when the key is absent. -/
def Block.header (b : Block) (k : String) : String :=
  (b.Headers.lookup k).getD ""

/-- Everything outside the package that `newMantaClient` consults. A failing
call gives the message of its error. -/
structure World where
  GetEnv : String → String
  NewSSHAgentSigner : SSHAgentSignerInput → Except String Signer
  Stat : String → Option String
  ReadFile : String → Except String Bytes
  pemDecode : Bytes → Option Block
  NewPrivateKeySigner : PrivateKeySignerInput → Except String Signer
  NewClient : ClientConfig → Except String StorageClient

/-- Result of code that may end the process through `log.Fatalf`. -/
inductive Outcome (α : Type) where
  | returned (a : α)
  | fatal (format : String) (args : List String)
  deriving DecidableEq, Repr

/-- The conversion `[]byte(s)`: the UTF-8 octets of a string. -/
def stringBytes (s : String) : Bytes :=
  s.toUTF8.toList.map (fun b => ⟨b.toNat % 256, Nat.mod_lt _ (by decide)⟩)

/-! ## Parameters -/

/-- The values an `interface{}` entry of the parameter map can hold, as far
as configuration supplies them. -/
inductive GoValue where
  | nil
  | str (s : String)
  | int (i : Int)
  | bool (b : Bool)
  deriving DecidableEq, Repr

/-- The default rendering `fmt.Sprint(v)` of a single value. -/
def Sprint : GoValue → String
  | .nil => "<nil>"
  | .str s => s
  | .int i => toString i
  | .bool true => "true"
  | .bool false => "false"

/-- The argument `map[string]interface{}`, given by its lookup: `none` when the
key is absent (`ok == false`). -/
abbrev Parameters := String → Option GoValue

/-- The Go type `driverParameters`. -/
structure driverParameters where
  path : String
  client : Option StorageClient
  deriving DecidableEq, Repr

/-- The struct `base.Base` as the composite literal in `New` builds it: it
embeds the wrapped storage driver. -/
structure Base where
  StorageDriver : driver
  deriving DecidableEq, Repr

/-- The Go type `baseEmbed`. -/
structure baseEmbed where
  Base : Base
  deriving DecidableEq, Repr

/-- The Go type `Driver`. -/
structure Driver where
  baseEmbed : baseEmbed
  deriving DecidableEq, Repr

/-! ## The methods of `driver` -/

/-- Method `Name`. -/
def driver.Name (_d : driver) : String :=
  driverName

/-- Method `Walk`: `return nil`, the visit function is not called. -/
def driver.Walk {σ : Type} (_d : driver) (_ctx : Context) (_root : String)
    (_f : WalkFn σ) (s : σ) : Option Error × σ :=
  (none, s)

/-- Method `Reader`: `return nil, nil`. -/
def driver.Reader (_d : driver) (_ctx : Context) (_path : String) (_offset : Int) :
    Option ReadCloser × Option Error :=
  (none, none)

/-- Method `Writer`: `return nil, storagedriver.PathNotFoundError{Path: path}`. -/
def driver.Writer (_d : driver) (_ctx : Context) (path : String) (_appendParam : Bool) :
    Option FileWriter × Option Error :=
  (none, some (Error.PathNotFoundError path))

/-- Method `Stat`: `return nil, nil`. -/
def driver.Stat (_d : driver) (_ctx : Context) (_path : String) :
    Option FileInfo × Option Error :=
  (none, none)

/-- Method `Move`: `return nil`. -/
def driver.Move (_d : driver) (_ctx : Context) (_sourcePath : String) (_destPath : String) :
    Option Error :=
  none

/-- Method `List`: `return nil, nil`; the `nil` slice is the empty list. -/
def driver.List (_d : driver) (_ctx : Context) (_path : String) :
    List String × Option Error :=
  ([], none)

/-- Method `Delete`: `return nil`. -/
def driver.Delete (_d : driver) (_ctx : Context) (_path : String) : Option Error :=
  none

/-- Method `GetContent`: `return nil, nil`; the `nil` slice is the empty list. -/
def driver.GetContent (_d : driver) (_ctx : Context) (_path : String) :
    Bytes × Option Error :=
  ([], none)

/-- Method `PutContent`: `return nil`. -/
def driver.PutContent (_d : driver) (_ctx : Context) (_path : String) (_contents : Bytes) :
    Option Error :=
  none

/-- Method `URLFor`: `return "", nil`. -/
def driver.URLFor (_d : driver) (_ctx : Context) (_path : String) (_options : Parameters) :
    String × Option Error :=
  ("", none)

/-- Method `Name` of `Driver`, promoted through the embedded fields
`baseEmbed`, `Base` and `StorageDriver`. -/
def Driver.Name (d : Driver) : String :=
  d.baseEmbed.Base.StorageDriver.Name

/-! ## Construction -/

/-- Function `New`: the parameters are not used. -/
def New (_params : driverParameters) : Option Driver × Option Error :=
  let d : driver := driver.mk
  (some (Driver.mk (baseEmbed.mk (Base.mk d))), none)

/-- The tail of `newMantaClient`: build the client configuration around the
signer and create the client. -/
def newMantaClient.finish (w : World) (accountName userName : String) (signer : Signer) :
    Outcome (Option StorageClient × Option Error) :=
  let config := ClientConfig.mk (w.GetEnv "URL") accountName userName [signer]
  match w.NewClient config with
  | .error err => .returned (none, some (Error.external err))
  | .ok client => .returned (some client, none)

/-- The private-key branch of `newMantaClient` once `keyBytes` is known. -/
def newMantaClient.withKey (w : World) (keyID accountName userName : String)
    (keyBytes : Bytes) : Outcome (Option StorageClient × Option Error) :=
  let input := PrivateKeySignerInput.mk keyID keyBytes accountName userName
  match w.NewPrivateKeySigner input with
  | .error err => .returned (none, some (Error.external err))
  | .ok signer => newMantaClient.finish w accountName userName signer

/-- Function `newMantaClient`. -/
def newMantaClient (w : World) : Outcome (Option StorageClient × Option Error) :=
  let keyID := w.GetEnv "KEY_ID"
  let accountName := w.GetEnv "USER"
  let keyMaterial := w.GetEnv "KEY_MATERIAL"
  let userName := w.GetEnv "USER"
  if keyMaterial = "" then
    let input := SSHAgentSignerInput.mk keyID accountName userName
    match w.NewSSHAgentSigner input with
    | .error err => .fatal "error creating SSH agent signer: %v" [err]
    | .ok signer => newMantaClient.finish w accountName userName signer
  else
    match w.Stat keyMaterial with
    | none =>
      match w.ReadFile keyMaterial with
      | .error err =>
        .fatal "error reading key material from %q: %v" [keyMaterial, err]
      | .ok keyBytes =>
        match w.pemDecode keyBytes with
        | none => .fatal "failed to read key material %q: no key found" [keyMaterial]
        | some block =>
          if block.header "Proc-Type" = "4,ENCRYPTED" then
            .fatal ("failed to read key %q: password protected keys are\n" ++
              "not currently supported, decrypt key prior to use") [keyMaterial]
          else
            newMantaClient.withKey w keyID accountName userName keyBytes
    | some _ =>
      newMantaClient.withKey w keyID accountName userName (stringBytes keyMaterial)

/-- Function `FromParameters`. -/
def FromParameters (w : World) (parameters : Parameters) :
    Outcome (Option Driver × Option Error) :=
  match parameters "path" with
  | none => .returned (none, some (Error.errorString "No path parameter provided"))
  | some mantaPath =>
    if Sprint mantaPath = "" then
      .returned (none, some (Error.errorString "No path parameter provided"))
    else
      match newMantaClient w with
      | .fatal format args => .fatal format args
      | .returned (_, some err) => .returned (none, some err)
      | .returned (mClient, none) =>
        .returned (New (driverParameters.mk (Sprint mantaPath) mClient))

/-- The Go type `mantaDriverFactory`, declared `struct{}`. -/
structure mantaDriverFactory where
  deriving DecidableEq, Repr

/-- Method `Create` of the factory. -/
def mantaDriverFactory.Create (_factory : mantaDriverFactory) (w : World)
    (parameters : Parameters) : Outcome (Option Driver × Option Error) :=
  FromParameters w parameters

/-- The constructor the test file registers with the shared driver suite
(`mantaDriverConstructor`). -/
def mantaDriverConstructor (w : World) (path : String) :
    Outcome (Option Driver × Option Error) :=
  match newMantaClient w with
  | .fatal format args => .fatal format args
  | .returned (_, some err) => .returned (none, some err)
  | .returned (mClient, none) => .returned (New (driverParameters.mk path mClient))

/-! ## Concrete inputs used by the checked instances -/

/-- The context `context.Background()`: never cancelled. -/
def background : Context := Context.mk false

/-- A visit function that always signals continue and appends the visited
path to the log. -/
def recordVisit : WalkFn (List String) :=
  fun info log => (none, log ++ [info.Path])

/-- A parameter map without any entry. -/
def noParameters : Parameters :=
  fun _ => none

/-- A parameter map whose only entry is `"path"`, holding `v`. -/
def pathParameter (v : GoValue) : Parameters :=
  fun k => if k = "path" then some v else none

/-- A world with an empty environment in which no SSH agent signer can be
made, so that `newMantaClient` ends the process. -/
def noAgentWorld : World where
  GetEnv := fun _ => ""
  NewSSHAgentSigner := fun _ => .error "no agent"
  Stat := fun _ => some "no such file"
  ReadFile := fun _ => .error "no such file"
  pemDecode := fun _ => none
  NewPrivateKeySigner := fun input => .ok (Signer.privateKey input)
  NewClient := fun config => .ok (StorageClient.mk config)

/-- A world with an empty environment in which every constructor succeeds. -/
def agentWorld : World where
  GetEnv := fun _ => ""
  NewSSHAgentSigner := fun input => .ok (Signer.sshAgent input)
  Stat := fun _ => some "no such file"
  ReadFile := fun _ => .error "no such file"
  pemDecode := fun _ => none
  NewPrivateKeySigner := fun input => .ok (Signer.privateKey input)
  NewClient := fun config => .ok (StorageClient.mk config)

/-! ## What each method returns -/

theorem driver_eq (d e : driver) : d = e := by
  cases d; cases e; rfl

theorem GetContent_eq (d : driver) (ctx : Context) (p : String) :
    d.GetContent ctx p = ([], none) := rfl

theorem PutContent_eq (d : driver) (ctx : Context) (p : String) (b : Bytes) :
    d.PutContent ctx p b = none := rfl

theorem Writer_eq (d : driver) (ctx : Context) (p : String) (appendParam : Bool) :
    d.Writer ctx p appendParam = (none, some (Error.PathNotFoundError p)) := rfl

theorem List_eq (d : driver) (ctx : Context) (p : String) :
    d.List ctx p = ([], none) := rfl

theorem Walk_eq {σ : Type} (d : driver) (ctx : Context) (root : String) (f : WalkFn σ) (s : σ) :
    d.Walk ctx root f s = (none, s) := rfl

theorem Stat_eq (d : driver) (ctx : Context) (p : String) :
    d.Stat ctx p = (none, none) := rfl

theorem Delete_eq (d : driver) (ctx : Context) (p : String) :
    d.Delete ctx p = none := rfl

theorem URLFor_eq (d : driver) (ctx : Context) (p : String) (options : Parameters) :
    d.URLFor ctx p options = ("", none) := rfl

/-- The round trip does hold for the empty byte string: what `GetContent`
returns has length zero. -/
theorem getContent_after_put_empty (d : driver) (ctx : Context) (p : String) :
    d.PutContent ctx p [] = none ∧ d.GetContent ctx p = ([], none) :=
  ⟨rfl, rfl⟩

/-- With a non-empty path the client is built: in a world without an SSH
agent `FromParameters` ends the process, in a world with one it returns a
driver. The outcome then does depend on the world. -/
theorem fromParameters_reaches_client :
    FromParameters noAgentWorld (pathParameter (GoValue.str "/registry"))
      = Outcome.fatal "error creating SSH agent signer: %v" ["no agent"] ∧
    FromParameters agentWorld (pathParameter (GoValue.str "/registry"))
      = Outcome.returned (New (driverParameters.mk "/registry" (some (StorageClient.mk
          (ClientConfig.mk "" "" "" [Signer.sshAgent (SSHAgentSignerInput.mk "" "" "")]))))) := by
  constructor <;> decide

/-! ## The claims -/

/-- C1, evaluated at the input on which it fails: `PutContent("/a", [97])`
reports success, yet the following `GetContent("/a")` returns no bytes and no
error, not the byte string that was put. -/
theorem C1_putContent_getContent_loses_bytes :
    driver.PutContent driver.mk background "/a" [97] = none ∧
    driver.GetContent driver.mk background "/a" = ([], none) ∧
    (driver.GetContent driver.mk background "/a").1 ≠ [97] := by
  refine ⟨rfl, rfl, ?_⟩
  decide

/-- C2: for every path `p` (the driver cannot hold an object at any path),
`Writer(p, append=true)` returns no writer session and the error
`PathNotFoundError` whose `Path` field is `p`. -/
theorem C2_writer_append_pathNotFound (d : driver) (ctx : Context) (p : String) :
    d.Writer ctx p true = (none, some (Error.PathNotFoundError p)) :=
  rfl

/-- C3, evaluated at the input on which it fails: `Writer("/a", append=false)`
returns no writer session and a `PathNotFoundError`, not a session with a nil
error. -/
theorem C3_writer_nonappend_fails :
    driver.Writer driver.mk background "/a" false
      = (none, some (Error.PathNotFoundError "/a")) ∧
    (driver.Writer driver.mk background "/a" false).1 = none ∧
    (driver.Writer driver.mk background "/a" false).2 ≠ none := by
  refine ⟨rfl, rfl, ?_⟩
  decide

/-- C4, evaluated at the input on which it fails: after `PutContent` has
reported success at `/a/1`, `/a/2` and `/b/1`, `List("/a")` returns the empty
list with a nil error, not the two children `/a/1` and `/a/2`. -/
theorem C4_list_returns_nothing :
    driver.PutContent driver.mk background "/a/1" [1] = none ∧
    driver.PutContent driver.mk background "/a/2" [2] = none ∧
    driver.PutContent driver.mk background "/b/1" [3] = none ∧
    driver.List driver.mk background "/a" = ([], none) ∧
    (driver.List driver.mk background "/a").1 ≠ ["/a/1", "/a/2"] := by
  refine ⟨rfl, rfl, rfl, rfl, ?_⟩
  decide

/-- C5, evaluated at the input on which it fails: after `PutContent` has
reported success at `/a/1`, `/a/2` and `/b/1`, `Walk` rooted at `/` with a
visit function that always continues returns a nil error without a single
visit, not the five visits `/a`, `/a/1`, `/a/2`, `/b`, `/b/1`. -/
theorem C5_walk_visits_nothing :
    driver.PutContent driver.mk background "/a/1" [1] = none ∧
    driver.PutContent driver.mk background "/a/2" [2] = none ∧
    driver.PutContent driver.mk background "/b/1" [3] = none ∧
    driver.Walk driver.mk background "/" recordVisit [] = (none, []) ∧
    (driver.Walk driver.mk background "/" recordVisit []).2
      ≠ ["/a", "/a/1", "/a/2", "/b", "/b/1"] := by
  refine ⟨rfl, rfl, rfl, rfl, ?_⟩
  decide

/-- C6, evaluated on the code: for every root and every visit function `Walk`
returns a nil error and leaves the visit state untouched, so a root under
which nothing is stored yields success and not a `PathNotFoundError`. -/
theorem C6_walk_returns_nil {σ : Type} (d : driver) (ctx : Context) (root : String)
    (f : WalkFn σ) (s : σ) :
    (d.Walk ctx root f s).1 = none ∧ (d.Walk ctx root f s).2 = s ∧
    (d.Walk ctx root f s).1 ≠ some (Error.PathNotFoundError root) := by
  refine ⟨rfl, rfl, ?_⟩
  simp [driver.Walk]

/-- C7, evaluated at the input on which it fails: after `PutContent` has
reported success at `/a/1`, `/a/2` and `/b/1` and `Delete("/a")` has reported
success, `Stat("/a")` returns no `FileInfo` and a nil error, not a
`PathNotFoundError`; and `/b/1` is not present either (`Stat` gives no
`FileInfo`, `GetContent` gives no bytes). -/
theorem C7_stat_after_delete_has_no_error :
    driver.PutContent driver.mk background "/a/1" [1] = none ∧
    driver.PutContent driver.mk background "/a/2" [2] = none ∧
    driver.PutContent driver.mk background "/b/1" [3] = none ∧
    driver.Delete driver.mk background "/a" = none ∧
    driver.Stat driver.mk background "/a" = (none, none) ∧
    (driver.Stat driver.mk background "/a").2 ≠ some (Error.PathNotFoundError "/a") ∧
    driver.Stat driver.mk background "/b/1" = (none, none) ∧
    driver.GetContent driver.mk background "/b/1" = ([], none) := by
  refine ⟨rfl, rfl, rfl, rfl, rfl, ?_, rfl, rfl⟩
  decide

/-- C8, evaluated on the code: the driver has no signing capability (it holds
no client), and for every path and option map `URLFor` returns the empty URL
together with a nil error, not an `UnsupportedMethodError`. -/
theorem C8_urlFor_empty_url_nil_error (d : driver) (ctx : Context) (path : String)
    (options : Parameters) :
    d.URLFor ctx path options = ("", none) ∧
    (d.URLFor ctx path options).2 ≠ some Error.UnsupportedMethodError := by
  refine ⟨rfl, ?_⟩
  simp [driver.URLFor]

/-- C9: when the key `"path"` is absent from the parameter map, or present with
a value that `fmt.Sprint` renders as the empty string, `FromParameters` returns
no driver and the error "No path parameter provided"; it does so in every
world, hence before the client is built and whatever the environment holds. -/
theorem C9_fromParameters_requires_path (w w2 : World) (parameters : Parameters)
    (h : parameters "path" = none ∨ ∃ v, parameters "path" = some v ∧ Sprint v = "") :
    FromParameters w parameters
      = Outcome.returned (none, some (Error.errorString "No path parameter provided")) ∧
    FromParameters w2 parameters = FromParameters w parameters := by
  have key : ∀ u : World, FromParameters u parameters
      = Outcome.returned (none, some (Error.errorString "No path parameter provided")) := by
    intro u
    rcases h with h | ⟨v, hv, hs⟩
    · simp [FromParameters, h]
    · simp [FromParameters, hv, hs]
  exact ⟨key w, by rw [key w, key w2]⟩

/-- C9 at concrete inputs: the empty map and the map holding the empty string
under `"path"`, in a world where building the client would end the process and
in one where it would succeed. -/
theorem C9_fromParameters_requires_path_witness :
    (FromParameters noAgentWorld noParameters
      = Outcome.returned (none, some (Error.errorString "No path parameter provided")) ∧
     FromParameters agentWorld noParameters = FromParameters noAgentWorld noParameters) ∧
    (FromParameters noAgentWorld (pathParameter (GoValue.str ""))
      = Outcome.returned (none, some (Error.errorString "No path parameter provided")) ∧
     FromParameters agentWorld (pathParameter (GoValue.str ""))
      = FromParameters noAgentWorld (pathParameter (GoValue.str ""))) :=
  ⟨C9_fromParameters_requires_path noAgentWorld agentWorld noParameters (Or.inl rfl),
   C9_fromParameters_requires_path noAgentWorld agentWorld (pathParameter (GoValue.str ""))
     (Or.inr ⟨GoValue.str "", by decide, rfl⟩)⟩

/-- C10: `New` returns a nil error and a driver for every parameter value, the
result is the same for any two parameter values (so every operation, that is
every function of the driver, gives the same result on both), and `Name()` of
the returned driver is "manta". -/
theorem C10_new_ignores_parameters (p q : driverParameters) :
    (New p).2 = none ∧
    New p = New q ∧
    (∀ (β : Type) (op : Driver → β), Option.map op (New p).1 = Option.map op (New q).1) ∧
    ∃ D : Driver, (New p).1 = some D ∧ (New q).1 = some D ∧ D.Name = "manta" ∧
      D.baseEmbed.Base.StorageDriver.Name = "manta" :=
  ⟨rfl, rfl, fun _ _ => rfl, _, rfl, rfl, rfl, rfl⟩

end manta
